import Mathlib

/-!
# CaosDB client library (`src/caoslib.cpp`)

A shallow embedding of the C++ client library: the string helpers it relies on
(`std::string::find`, `substr`, `c_str`), the libcurl calls it makes (as a log of
calls answered by an `Engine` that fixes how libcurl behaves in one run), the five
verb operations, the `pass` lookup and the `extern "C"` wrappers.
-/

namespace CaosDB

/-! ## Strings -/

/-- Contents of a `std::string`: a sequence of chars (bytes), NUL bytes allowed. -/
abbrev Bytes := List Char

/-- The terminator of C strings. -/
def NUL : Char := Char.ofNat 0

/-- What a C function reads through a `char*` that points at the bytes `s`
(`s.c_str()`, `string(const char*)`, `strcpy`): the bytes before the first NUL. -/
def c_str (s : Bytes) : Bytes := s.takeWhile (fun c => c != NUL)

/-- The value `string::npos`, the largest `size_t`. -/
def npos : Nat := 2 ^ 64 - 1

/-- Search of `std::string::find`: the first offset (counted from `i`) at which `pat`
starts in `s`. -/
def findAux (pat : Bytes) : Bytes → Nat → Option Nat
  | [], i => if pat.isPrefixOf [] then some i else none
  | c :: cs, i => if pat.isPrefixOf (c :: cs) then some i else findAux pat cs (i + 1)

/-- Model of `s.find(pat, pos)`: the lowest position `p ≥ pos` at which `pat` occurs in
`s`; `none` stands for the result `string::npos`. -/
def find (s pat : Bytes) (pos : Nat) : Option Nat :=
  if pos > s.length then none else findAux pat (s.drop pos) pos

/-- The `size_t` value of a result of `find`. -/
def size_t_val : Option Nat → Nat
  | none => npos
  | some p => p

/-- Conversion of a `size_t` to `int` (32 bit, two's complement), as in
`int cookpos = header.find(...)`. -/
def to_int (n : Nat) : Int :=
  if n % 2 ^ 32 < 2 ^ 31 then ((n % 2 ^ 32 : Nat) : Int) else ((n % 2 ^ 32 : Nat) : Int) - 2 ^ 32

/-- The value of an arithmetic expression of type `int` (32 bit): the exact result when it
is in range, and its two's complement wrap-around when it overflows (which C++ leaves
undefined). -/
def int_wrap (i : Int) : Int := (i + 2 ^ 31) % 2 ^ 32 - 2 ^ 31

/-- Conversion of an `int` to `size_t` (64 bit), as happens to the `int` arguments of
`find` and `substr` and in the comparison `cookpos == string::npos`. -/
def to_size_t (i : Int) : Nat := (i % 2 ^ 64).toNat

/-- Model of `s.substr(pos, count)`: `none` stands for the exception `std::out_of_range`,
thrown when `pos > size()`; otherwise the `min(count, size() - pos)` chars from `pos`. -/
def substr (s : Bytes) (pos count : Nat) : Option Bytes :=
  if pos > s.length then none else some ((s.drop pos).take (min count (s.length - pos)))

/-! ## The HTTP engine (libcurl) -/

/-- Result codes of libcurl (`CURLcode`); `CURLE_OK` is 0. -/
abbrev CURLcode := Nat

/-- The success code. -/
def CURLE_OK : CURLcode := 0

/-- The options the library sets on a handle. -/
inductive CurlOpt
  | WRITEFUNCTION | HEADERFUNCTION | URL | CAINFO | WRITEDATA | HEADERDATA
  | POST | POSTFIELDS | VERBOSE | COOKIE | CUSTOMREQUEST | ERRORBUFFER
  deriving DecidableEq, Repr

/-- The third argument of a `curl_easy_setopt` call. -/
inductive Arg
  | str (s : Bytes)
  | long (n : Int)
  | writefunc
  | content
  | header
  | errbuf
  deriving DecidableEq, Repr

/-- One call into libcurl. -/
inductive Call
  | global_init
  | easy_init
  | setopt (o : CurlOpt) (a : Arg)
  | perform
  | easy_cleanup
  | global_cleanup
  deriving DecidableEq, Repr

/-- The two accumulators of a request: `content` (body) and `header`. -/
inductive Sink
  | body
  | header
  deriving DecidableEq, Repr

/-- One chunk of received data, handed by the engine to the write callback together
with the accumulator registered for it. The callback receives the byte count as a `size_t`,
so a chunk has fewer than `2 ^ 64` bytes. -/
structure Chunk where
  sink : Sink
  data : Bytes
  fits : data.length < 2 ^ 64

/-- How libcurl behaves in one run: the code each call returns, whether
`curl_easy_init` yields a handle, the chunks it delivers while performing and the text it
leaves in the error buffer. Every option is set at most once in a run, so the answers to
`curl_easy_setopt` are given per option. -/
structure Engine where
  global_init : CURLcode
  easy_init : Bool
  setopt : CurlOpt → CURLcode
  perform : CURLcode
  chunks : List Chunk
  errbuf : Bytes

/-- Model of `curl_global_init(CURL_GLOBAL_ALL)`. -/
def curl_global_init (E : Engine) (log : List Call) : CURLcode × List Call :=
  (E.global_init, log ++ [Call.global_init])

/-- Model of `curl_easy_init()`: `true` for a non-null handle. -/
def curl_easy_init (E : Engine) (log : List Call) : Bool × List Call :=
  (E.easy_init, log ++ [Call.easy_init])

/-- Model of `curl_easy_setopt(curl, o, a)`. -/
def curl_easy_setopt (E : Engine) (log : List Call) (o : CurlOpt) (a : Arg) :
    CURLcode × List Call :=
  (E.setopt o, log ++ [Call.setopt o a])

/-- Source: `writefunc` (lines 36-39). Appends `nm * size` bytes of `p` to the stream
and returns that count; the product is a `size_t`, taken modulo `2 ^ 64`. -/
def writefunc (p : Bytes) (size nm : Nat) (stream : Bytes) : Bytes × Nat :=
  (stream ++ p.take (nm * size % 2 ^ 64), nm * size % 2 ^ 64)

/-- The callbacks of one transfer: the engine calls `writefunc` once per chunk (with
`size` 1 and `nm` the chunk length, as libcurl does), passing the accumulator registered
for the chunk's stream. The state is the pair `(content, header)`. -/
def deliver : List Chunk → Bytes × Bytes → Bytes × Bytes
  | [], acc => acc
  | c :: cs, acc =>
    match c.sink with
    | Sink.body => deliver cs ((writefunc c.data 1 c.data.length acc.1).1, acc.2)
    | Sink.header => deliver cs (acc.1, (writefunc c.data 1 c.data.length acc.2).1)

/-- Result of `curl_easy_perform`: its code, the two accumulators afterwards, the log. -/
structure Performed where
  code : CURLcode
  content : Bytes
  header : Bytes
  log : List Call

/-- Model of `curl_easy_perform(curl)` with the accumulators `content` and `header`
registered by `set_streams`. -/
def curl_easy_perform (E : Engine) (log : List Call) (content header : Bytes) : Performed :=
  { code := E.perform
    content := (deliver E.chunks (content, header)).1
    header := (deliver E.chunks (content, header)).2
    log := log ++ [Call.perform] }

/-! ## The library -/

/-- Source: `init` (lines 48-80). Returns 0, 1 (initialisation failed) or 2 (an option
could not be set), and the calls made. -/
def init (E : Engine) (url ca : Bytes) : Nat × List Call :=
  let g := curl_global_init E []
  if g.1 ≠ CURLE_OK then (1, g.2)
  else
    let h := curl_easy_init E g.2
    if h.1 = false then (1, h.2)
    else
      let w := curl_easy_setopt E h.2 CurlOpt.WRITEFUNCTION Arg.writefunc
      if w.1 ≠ CURLE_OK then (2, w.2)
      else
        let hf := curl_easy_setopt E w.2 CurlOpt.HEADERFUNCTION Arg.writefunc
        if hf.1 ≠ CURLE_OK then (2, hf.2)
        else
          let u := curl_easy_setopt E hf.2 CurlOpt.URL (Arg.str (c_str url))
          if u.1 ≠ CURLE_OK then (2, u.2)
          else
            let c := curl_easy_setopt E u.2 CurlOpt.CAINFO (Arg.str (c_str ca))
            if c.1 ≠ CURLE_OK then (2, c.2)
            else (0, c.2)

/-- Source: `set_streams` (lines 88-100). Returns 0 or 2, and the extended log. -/
def set_streams (E : Engine) (log : List Call) : Nat × List Call :=
  let w := curl_easy_setopt E log CurlOpt.WRITEDATA Arg.content
  if w.1 ≠ CURLE_OK then (2, w.2)
  else
    let h := curl_easy_setopt E w.2 CurlOpt.HEADERDATA Arg.header
    if h.1 ≠ CURLE_OK then (2, h.2)
    else (0, h.2)

/-- The value and the libcurl calls of one call of a library function. `none` as value
stands for an uncaught C++ exception. -/
abbrev Outcome := Option Bytes × List Call

/-- Source: macro `CURLCODE_ERRORCHECK` (lines 17-18): returns the error text when `code`
is not `CURLE_OK`, else goes on with `k`. The macro parameter stands inside the string
literal, where the preprocessor does not replace it. -/
def CURLCODE_ERRORCHECK (code : CURLcode) (log : List Call) (k : Outcome) : Outcome :=
  if code ≠ CURLE_OK then
    (some "Error: Error setting libCURL options (function_name).".toList, log)
  else k

/-- Source: macro `CURL_PERFORM` (lines 20-29): registers the error buffer, performs the
request and cleans up; `k` is the code after the macro, run with the accumulators as the
transfer left them. -/
def CURL_PERFORM (E : Engine) (log : List Call) (content header : Bytes)
    (k : Bytes → Bytes → List Call → Outcome) : Outcome :=
  let e := curl_easy_setopt E log CurlOpt.ERRORBUFFER Arg.errbuf
  CURLCODE_ERRORCHECK e.1 e.2
    (let p := curl_easy_perform E e.2 content header
     if p.code ≠ CURLE_OK then
       (some ("Error: Error in libCURL perform (caosdb_login). [".toList ++ c_str E.errbuf
          ++ "]".toList), p.log)
     else k p.content p.header (p.log ++ [Call.easy_cleanup, Call.global_cleanup]))

/-- Source: `caosdb_login`, lines 143-157: the session cookie read from the captured
header block, or one of the two error texts. `none` stands for the exception of `substr`.
The three locals are `int`s: each result of `find` goes through `to_int`, each sum and
difference through `int_wrap`, each use as a position or count through `to_size_t`. -/
def login_cookie (header : Bytes) : Option Bytes :=
  let cookpos : Int := to_int (size_t_val (find header "Set-Cookie: ".toList 0))
  if to_size_t cookpos = npos then
    if find header "401 Unauthorized".toList 0 ≠ none then
      some "Error: Authentication failed.".toList
    else some "Error: The server returned no cookie.".toList
  else
    let rscook : Int := int_wrap (cookpos + 12)
    let endcook : Int := to_int (size_t_val (find header "\n".toList (to_size_t rscook)))
    substr header (to_size_t rscook) (to_size_t (int_wrap (int_wrap (endcook - rscook) - 1)))

/-- Source: `caosdb_login` (lines 112-158); its last part is `login_cookie`. -/
def caosdb_login (E : Engine) (user pw baseurl cacert : Bytes) (verbose : Bool) : Outcome :=
  let i := init E (baseurl ++ "login".toList) cacert
  if i.1 = 1 then (some "Error: Error during libCURL initialization (init).".toList, i.2)
  else if i.1 = 2 then (some "Error: Error setting libCURL options (init).".toList, i.2)
  else
    let s := set_streams E i.2
    if s.1 = 2 then
      (some "Error: Error setting libCURL stream options (set_streams).".toList, s.2)
    else
      let inpline := "username=".toList ++ user ++ "&password=".toList ++ pw
      let p := curl_easy_setopt E s.2 CurlOpt.POST (Arg.long 1)
      CURLCODE_ERRORCHECK p.1 p.2
        (let f := curl_easy_setopt E p.2 CurlOpt.POSTFIELDS (Arg.str (c_str inpline))
         CURLCODE_ERRORCHECK f.1 f.2
           (let rest : List Call → Outcome := fun log =>
              CURL_PERFORM E log [] [] (fun _ header log => (login_cookie header, log))
            if verbose then
              let v := curl_easy_setopt E f.2 CurlOpt.VERBOSE (Arg.long 1)
              CURLCODE_ERRORCHECK v.1 v.2 (rest v.2)
            else rest f.2))

/-- Source: `caosdb_get` (lines 172-200). The local `CURLcode code;` is declared without an
initialiser and the results of the `curl_easy_setopt` calls that follow `set_streams` are
not stored in it, so each `CURLCODE_ERRORCHECK` before `CURL_PERFORM` reads the value the
variable happens to hold: that value is the parameter `code`. -/
def caosdb_get (E : Engine) (code : CURLcode) (url cookiestring baseurl cacert : Bytes)
    (verbose : Bool) : Outcome :=
  let i := init E (baseurl ++ url) cacert
  if i.1 = 1 then (some "Error: Error during libCURL initialization (init).".toList, i.2)
  else if i.1 = 2 then (some "Error: Error setting libCURL options (init).".toList, i.2)
  else
    let s := set_streams E i.2
    if s.1 = 2 then
      (some "Error: Error setting libCURL stream options (set_streams).".toList, s.2)
    else
      let rest : List Call → Outcome := fun log =>
        let c := curl_easy_setopt E log CurlOpt.COOKIE (Arg.str (c_str cookiestring))
        CURLCODE_ERRORCHECK code c.2
          (CURL_PERFORM E c.2 [] [] (fun content _ log => (some content, log)))
      if verbose then
        let v := curl_easy_setopt E s.2 CurlOpt.VERBOSE (Arg.long 1)
        CURLCODE_ERRORCHECK code v.2 (rest v.2)
      else rest s.2

/-- Source: `caosdb_delete` (lines 212-242); the parameter `code` as in `caosdb_get`. -/
def caosdb_delete (E : Engine) (code : CURLcode) (url cookiestring baseurl cacert : Bytes)
    (verbose : Bool) : Outcome :=
  let i := init E (baseurl ++ url) cacert
  if i.1 = 1 then (some "Error: Error during libCURL initialization (init).".toList, i.2)
  else if i.1 = 2 then (some "Error: Error setting libCURL options (init).".toList, i.2)
  else
    let s := set_streams E i.2
    if s.1 = 2 then
      (some "Error: Error setting libCURL stream options (set_streams).".toList, s.2)
    else
      let rest : List Call → Outcome := fun log =>
        let c := curl_easy_setopt E log CurlOpt.COOKIE (Arg.str (c_str cookiestring))
        CURLCODE_ERRORCHECK code c.2
          (let m := curl_easy_setopt E c.2 CurlOpt.CUSTOMREQUEST (Arg.str "DELETE".toList)
           CURLCODE_ERRORCHECK code m.2
             (CURL_PERFORM E m.2 [] [] (fun content _ log => (some content, log))))
      if verbose then
        let v := curl_easy_setopt E s.2 CurlOpt.VERBOSE (Arg.long 1)
        CURLCODE_ERRORCHECK code v.2 (rest v.2)
      else rest s.2

/-- Source: `caosdb_put` (lines 258-291); the parameter `code` as in `caosdb_get`. -/
def caosdb_put (E : Engine) (code : CURLcode) (url cookiestring body baseurl cacert : Bytes)
    (verbose : Bool) : Outcome :=
  let i := init E (baseurl ++ url) cacert
  if i.1 = 1 then (some "Error: Error during libCURL initialization (init).".toList, i.2)
  else if i.1 = 2 then (some "Error: Error setting libCURL options (init).".toList, i.2)
  else
    let s := set_streams E i.2
    if s.1 = 2 then
      (some "Error: Error setting libCURL stream options (set_streams).".toList, s.2)
    else
      let rest : List Call → Outcome := fun log =>
        let c := curl_easy_setopt E log CurlOpt.COOKIE (Arg.str (c_str cookiestring))
        CURLCODE_ERRORCHECK code c.2
          (let m := curl_easy_setopt E c.2 CurlOpt.CUSTOMREQUEST (Arg.str "PUT".toList)
           CURLCODE_ERRORCHECK code m.2
             (let b := curl_easy_setopt E m.2 CurlOpt.POSTFIELDS (Arg.str (c_str body))
              CURLCODE_ERRORCHECK code b.2
                (CURL_PERFORM E b.2 [] [] (fun content _ log => (some content, log)))))
      if verbose then
        let v := curl_easy_setopt E s.2 CurlOpt.VERBOSE (Arg.long 1)
        CURLCODE_ERRORCHECK code v.2 (rest v.2)
      else rest s.2

/-- Source: `caosdb_post` (lines 304-337); the parameter `code` as in `caosdb_get`. -/
def caosdb_post (E : Engine) (code : CURLcode) (url cookiestring body baseurl cacert : Bytes)
    (verbose : Bool) : Outcome :=
  let i := init E (baseurl ++ url) cacert
  if i.1 = 1 then (some "Error: Error during libCURL initialization (init).".toList, i.2)
  else if i.1 = 2 then (some "Error: Error setting libCURL options (init).".toList, i.2)
  else
    let s := set_streams E i.2
    if s.1 = 2 then
      (some "Error: Error setting libCURL stream options (set_streams).".toList, s.2)
    else
      let rest : List Call → Outcome := fun log =>
        let c := curl_easy_setopt E log CurlOpt.COOKIE (Arg.str (c_str cookiestring))
        CURLCODE_ERRORCHECK code c.2
          (let m := curl_easy_setopt E c.2 CurlOpt.CUSTOMREQUEST (Arg.str "POST".toList)
           CURLCODE_ERRORCHECK code m.2
             (let b := curl_easy_setopt E m.2 CurlOpt.POSTFIELDS (Arg.str (c_str body))
              CURLCODE_ERRORCHECK code b.2
                (CURL_PERFORM E b.2 [] [] (fun content _ log => (some content, log)))))
      if verbose then
        let v := curl_easy_setopt E s.2 CurlOpt.VERBOSE (Arg.long 1)
        CURLCODE_ERRORCHECK code v.2 (rest v.2)
      else rest s.2

/-! ## The `pass` lookup -/

/-- The subprocess facility of one run: `popen command` is `none` when the command cannot
be started (`popen` returns `NULL`), else everything the command writes to its standard
output. -/
structure Shell where
  popen : Bytes → Option Bytes

/-- The chars `fgets` stores when at most `k` chars fit: it reads up to and including the
first newline. -/
def read_line : Nat → Bytes → Bytes
  | 0, _ => []
  | _ + 1, [] => []
  | k + 1, c :: cs => if c = '\n' then [c] else c :: read_line k cs

/-- Model of `fgets(buf, n, stream)`: `none` stands for the result `NULL` (end of file
before any char), else the chars stored in `buf` before the terminating NUL. -/
def fgets (n : Nat) (stream : Bytes) : Option Bytes :=
  if stream = [] then none else some (read_line (n - 1) stream)

/-- Source: `get_pass_pw` (lines 347-357). `none` stands for the undefined behaviour of
`string(NULL)`, reached when `fgets` returns `NULL`. -/
def get_pass_pw (S : Shell) (pw_identifier : Bytes) : Option Bytes :=
  match S.popen (c_str ("pass ".toList ++ pw_identifier)) with
  | none => some []
  | some out =>
    match fgets 2000 out with
    | none => none
    | some buf => some (c_str buf)

/-! ## The `extern "C"` wrappers -/

/-- A C string (`char*`): the bytes before its terminating NUL. -/
def CString := { s : Bytes // NUL ∉ s }

/-- Model of `string(p)` for a `const char* p`. -/
def string (p : CString) : Bytes := p.val

/-- The lines `char* str2 = (char*)malloc(str.length()+1); strcpy(str2, str.c_str());`
of every wrapper (the allocation succeeding): the new C string holds the bytes of `str`
before its first NUL. -/
def strcpy_new (str : Bytes) : CString :=
  ⟨c_str str, fun h => by simpa [NUL] using List.mem_takeWhile_imp h⟩

/-- What a wrapper hands back: the copy of the value of the wrapped call (nothing when that
call did not return), with the same libcurl calls. -/
def wrap (r : Outcome) : Option CString × List Call := (r.1.map strcpy_new, r.2)

/-- Source: `login` (lines 368-375). -/
def login (E : Engine) (username password baseurl cacert : CString) (verbose : Bool) :
    Option CString × List Call :=
  wrap (caosdb_login E (string username) (string password) (string baseurl) (string cacert)
    verbose)

/-- Source: `get` (lines 382-389). -/
def get (E : Engine) (code : CURLcode) (url cookiestr baseurl cacert : CString)
    (verbose : Bool) : Option CString × List Call :=
  wrap (caosdb_get E code (string url) (string cookiestr) (string baseurl) (string cacert)
    verbose)

/-- Source: `del` (lines 396-403). -/
def del (E : Engine) (code : CURLcode) (url cookiestr baseurl cacert : CString)
    (verbose : Bool) : Option CString × List Call :=
  wrap (caosdb_delete E code (string url) (string cookiestr) (string baseurl) (string cacert)
    verbose)

/-- Source: `put` (lines 410-417). -/
def put (E : Engine) (code : CURLcode) (url cookiestr body baseurl cacert : CString)
    (verbose : Bool) : Option CString × List Call :=
  wrap (caosdb_put E code (string url) (string cookiestr) (string body) (string baseurl)
    (string cacert) verbose)

/-- Source: `post` (lines 424-431). -/
def post (E : Engine) (code : CURLcode) (url cookiestr body baseurl cacert : CString)
    (verbose : Bool) : Option CString × List Call :=
  wrap (caosdb_post E code (string url) (string cookiestr) (string body) (string baseurl)
    (string cacert) verbose)

/-- Source: `pass_pw` (lines 438-443). -/
def pass_pw (S : Shell) (pw_identifier : CString) : Option CString :=
  (get_pass_pw S (string pw_identifier)).map strcpy_new

/-! ## Notions used to state the properties -/

/-- The bytes the engine delivers to one accumulator: its chunks, joined in arrival order. -/
def received (s : Sink) (cs : List Chunk) : Bytes :=
  ((cs.filter (fun c => c.sink = s)).map Chunk.data).flatten

/-- A run in which initialisation, every option setting and the perform all succeed. The
answer recorded for an option that a function never sets plays no part in its run. -/
def Engine.succeeds (E : Engine) : Prop :=
  E.global_init = CURLE_OK ∧ E.easy_init = true ∧ (∀ o, E.setopt o = CURLE_OK) ∧
    E.perform = CURLE_OK

/-- The string `s` contains the string `pat`. -/
def contains (s pat : Bytes) : Prop := pat <:+: s

/-- The string `s` starts with the error marker. -/
def is_error (s : Bytes) : Prop := "Error: ".toList <+: s

instance (s pat : Bytes) : Decidable (contains s pat) := by unfold contains; infer_instance

instance (s : Bytes) : Decidable (is_error s) := by unfold is_error; infer_instance

/-- A run in which every libcurl call succeeds and the engine delivers `chunks`. -/
def ok_engine (chunks : List Chunk) : Engine :=
  { global_init := CURLE_OK, easy_init := true, setopt := fun _ => CURLE_OK,
    perform := CURLE_OK, chunks := chunks, errbuf := [] }

/-- The call `c` is one the engine `E` answers with a failure. -/
def failed (E : Engine) : Call → Prop
  | Call.global_init => E.global_init ≠ CURLE_OK
  | Call.easy_init => E.easy_init = false
  | Call.setopt o _ => E.setopt o ≠ CURLE_OK
  | Call.perform => E.perform ≠ CURLE_OK
  | Call.easy_cleanup => False
  | Call.global_cleanup => False

/-- A run in which the engine rejects the option `bad` with the code `err`, every other
call succeeds and the engine delivers `chunks`. -/
def rejecting_engine (bad : CurlOpt) (err : CURLcode) (chunks : List Chunk) : Engine :=
  { global_init := CURLE_OK, easy_init := true,
    setopt := fun o => if o = bad then err else CURLE_OK,
    perform := CURLE_OK, chunks := chunks, errbuf := [] }

/-- A machine on which `pass mail/caosdb` prints the password `hunter2` and a second line,
and no other command can be started. -/
def sample_shell : Shell :=
  { popen := fun cmd =>
      if cmd = "pass mail/caosdb".toList then some "hunter2\nlogin: admin\n".toList else none }

/-- A header line `X-Pad: a...a` CR LF with `k` letters, `k + 9` bytes long. -/
def pad_line (k : Nat) : Bytes := "X-Pad: ".toList ++ List.replicate k 'a' ++ "\r\n".toList

/-- The header block made of `m` lines `pad_line k`. -/
def pad_block (m k : Nat) : Bytes := (List.replicate m (pad_line k)).flatten

/-- The line `pad_line k` as one header chunk. -/
def pad_chunk (k : Nat) (h : k + 9 < 2 ^ 64) : Chunk :=
  ⟨Sink.header, pad_line k, by
    have h1 : "X-Pad: ".toList.length = 7 := rfl
    have h2 : "\r\n".toList.length = 2 := rfl
    simp only [pad_line, List.length_append, List.length_replicate, h1, h2]
    omega⟩

/-- A long answer: 65537 header lines of 65535 bytes each, `2 ^ 32 - 1` bytes in all,
and then the line `Set-Cookie: abc123`. -/
def long_header_chunks : List Chunk :=
  List.replicate 65537 (pad_chunk 65526 (by norm_num)) ++
    [⟨Sink.header, "Set-Cookie: abc123\r\n".toList, by decide⟩]

/-! ## Lemmas on the string helpers -/

theorem deliver_eq (cs : List Chunk) (content header : Bytes) :
    deliver cs (content, header) =
      (content ++ received Sink.body cs, header ++ received Sink.header cs) := by
  induction cs generalizing content header with
  | nil => simp [deliver, received]
  | cons c cs ih =>
    obtain ⟨k, d, hd⟩ := c
    have hm : d.length % 18446744073709551616 = d.length := by omega
    cases k <;> simp [deliver, writefunc, ih, received, List.filter_cons, hm]

theorem findAux_eq_none (pat s : Bytes) (i : Nat) :
    findAux pat s i = none ↔ ¬ pat <:+: s := by
  induction s generalizing i with
  | nil =>
    cases pat <;> simp [findAux]
  | cons c cs ih =>
    rw [findAux]
    by_cases h : pat <+: c :: cs
    · simp [h, List.infix_cons_iff]
    · simp [h, ih, List.infix_cons_iff]

theorem find_zero_eq_none (s pat : Bytes) : find s pat 0 = none ↔ ¬ contains s pat := by
  simp [find, contains, findAux_eq_none]

theorem login_of_succeeds (E : Engine) (user pw baseurl cacert : Bytes) (verbose : Bool)
    (h : E.succeeds) :
    (caosdb_login E user pw baseurl cacert verbose).1 =
      login_cookie (received Sink.header E.chunks) := by
  obtain ⟨h1, h2, h3, h4⟩ := h
  cases verbose <;>
    simp [caosdb_login, init, set_streams, curl_global_init, curl_easy_init, curl_easy_setopt,
      CURLCODE_ERRORCHECK, CURL_PERFORM, curl_easy_perform, h1, h2, h3, h4, deliver_eq]

theorem to_int_of_lt (n : Nat) (h : n < 2 ^ 31) : to_int n = (n : Int) := by
  unfold to_int
  have h1 : n % 2 ^ 32 = n := Nat.mod_eq_of_lt (by omega)
  rw [h1, if_pos h]

theorem to_size_t_of_nat (n : Nat) (h : n < 2 ^ 64) : to_size_t (n : Int) = n := by
  unfold to_size_t
  omega

theorem to_int_npos : to_int npos = -1 := by decide

theorem int_wrap_of_range (i : Int) (h1 : -2 ^ 31 ≤ i) (h2 : i < 2 ^ 31) : int_wrap i = i := by
  unfold int_wrap
  omega

theorem to_size_t_neg_one : to_size_t (-1) = npos := by decide

theorem findAux_of_prefix (pat s : Bytes) (i : Nat) (h : pat <+: s) :
    findAux pat s i = some i := by
  cases s with
  | nil => simp_all [findAux]
  | cons c cs => simp [findAux, h]

theorem findAux_first (pat pre rest : Bytes) (i : Nat)
    (hfirst : ∀ k, k < pre.length → ¬ pat <+: (pre ++ (pat ++ rest)).drop k) :
    findAux pat (pre ++ (pat ++ rest)) i = some (i + pre.length) := by
  induction pre generalizing i with
  | nil => simpa using findAux_of_prefix pat (pat ++ rest) i (List.prefix_append _ _)
  | cons c pre ih =>
    have h0 := hfirst 0 (by simp)
    simp only [List.drop_zero, List.cons_append] at h0
    rw [List.cons_append, findAux]
    simp only [List.isPrefixOf_iff_prefix, h0, if_false]
    rw [ih (i + 1)]
    · simp; omega
    · intro k hk
      have := hfirst (k + 1) (by simp; omega)
      simpa using this

/-- A pattern whose first char does not occur again in it cannot start inside `pre` and
run over into a copy of itself that follows `pre`. -/
theorem no_early_match (c : Char) (ps pre rest : Bytes) (hc : c ∉ ps)
    (hpre : ¬ (c :: ps) <:+: pre) (k : Nat) (hk : k < pre.length) :
    ¬ (c :: ps) <+: (pre ++ ((c :: ps) ++ rest)).drop k := by
  intro hp
  rw [List.drop_append_of_le_length (Nat.le_of_lt hk)] at hp
  have hu : (pre.drop k).length = pre.length - k := List.length_drop k pre
  by_cases hlen : (c :: ps).length ≤ (pre.drop k).length
  · have h1 : (c :: ps) <+: pre.drop k :=
      List.prefix_of_prefix_length_le hp (List.prefix_append _ _) hlen
    exact hpre (h1.isInfix.trans (List.drop_suffix k pre).isInfix)
  · have h1 : pre.drop k <+: (c :: ps) :=
      List.prefix_of_prefix_length_le (List.prefix_append _ _) hp (by omega)
    obtain ⟨v, hv⟩ := h1
    rw [← hv, List.prefix_append_right_inj] at hp
    cases hu2 : pre.drop k with
    | nil => rw [hu2] at hu; simp at hu; omega
    | cons a u =>
      rw [hu2] at hv
      cases v with
      | nil =>
        rw [hu2] at hlen
        rw [← hv] at hlen
        simp at hlen
      | cons b v =>
        rw [hu2] at hp
        simp only [List.cons_append, List.cons.injEq] at hv hp
        have hb : b = a := (List.cons_prefix_cons.1 hp).1
        apply hc
        rw [← hv.2, ← hv.1, ← hb]
        simp

theorem find_first (c : Char) (ps pre rest : Bytes) (hc : c ∉ ps)
    (hpre : ¬ contains pre (c :: ps)) :
    find (pre ++ ((c :: ps) ++ rest)) (c :: ps) 0 = some pre.length := by
  unfold find
  simp only [List.drop_zero]
  rw [if_neg (by omega), findAux_first _ _ _ _ (no_early_match c ps pre rest hc hpre)]
  simp

theorem findAux_newline (span post : Bytes) (i : Nat) (h : '\n' ∉ span) :
    findAux "\n".toList (span ++ '\n' :: post) i = some (i + span.length) := by
  induction span generalizing i with
  | nil => exact findAux_of_prefix _ _ _ ⟨post, rfl⟩
  | cons a span ih =>
    have ha : a ≠ '\n' := fun e => h (by simp [e])
    have hn : ¬ "\n".toList <+: a :: (span ++ '\n' :: post) := by
      intro hp
      have : "\n".toList = ['\n'] := rfl
      rw [this] at hp
      exact ha (List.cons_prefix_cons.1 hp).1.symm
    rw [List.cons_append, findAux]
    simp only [List.isPrefixOf_iff_prefix, hn, if_false]
    rw [ih (i + 1) (fun hm => h (List.mem_cons_of_mem _ hm))]
    simp; omega

theorem drop_marker (pre mark tail : Bytes) (n : Nat) (hn : n = pre.length + mark.length) :
    (pre ++ (mark ++ tail)).drop n = tail := by
  subst hn
  rw [← List.append_assoc, ← List.length_append]
  exact List.drop_left _ _

/-- What lines 151-157 compute when the first `Set-Cookie: ` stands after `pre` and is
followed by `span`, a newline and `post`, in a header block whose offsets fit an `int`:
`span` without its last char, but the whole rest of the block when `span` is empty. -/
theorem login_cookie_span (pre span post : Bytes)
    (hfirst : find (pre ++ ("Set-Cookie: ".toList ++ (span ++ '\n' :: post)))
      "Set-Cookie: ".toList 0 = some pre.length)
    (hnl : '\n' ∉ span)
    (hlen : (pre ++ ("Set-Cookie: ".toList ++ (span ++ '\n' :: post))).length < 2 ^ 31) :
    login_cookie (pre ++ ("Set-Cookie: ".toList ++ (span ++ '\n' :: post))) =
      some (if span = [] then '\n' :: post else span.dropLast) := by
  have hm : "Set-Cookie: ".toList.length = 12 := rfl
  have hl : (pre ++ ("Set-Cookie: ".toList ++ (span ++ '\n' :: post))).length =
      pre.length + 12 + span.length + 1 + post.length := by
    simp only [List.length_append, hm, List.length_cons]; omega
  rw [hl] at hlen
  have hdrop := drop_marker pre "Set-Cookie: ".toList (span ++ '\n' :: post)
    (pre.length + 12) (by rw [hm])
  have hcast : ((pre.length : Int) + 12) = ((pre.length + 12 : Nat) : Int) := by push_cast; rfl
  have hfind2 : find (pre ++ ("Set-Cookie: ".toList ++ (span ++ '\n' :: post))) "\n".toList
      (pre.length + 12) = some (pre.length + 12 + span.length) := by
    unfold find
    rw [if_neg (by rw [hl]; omega), hdrop, findAux_newline span post _ hnl]
  have hw : int_wrap ((pre.length : Int) + 12) = ((pre.length + 12 : Nat) : Int) := by
    rw [int_wrap_of_range _ (by omega) (by omega), hcast]
  unfold login_cookie
  simp only [hfirst, size_t_val]
  rw [to_int_of_lt _ (by omega), to_size_t_of_nat _ (by omega), if_neg (by unfold npos; omega),
    hw, to_size_t_of_nat _ (by omega), hfind2]
  simp only [size_t_val]
  rw [to_int_of_lt _ (by omega)]
  unfold substr
  rw [if_neg (by rw [hl]; omega), hdrop, hl]
  cases span with
  | nil =>
    have h1 : int_wrap (int_wrap (((pre.length + 12 + ([] : Bytes).length : Nat) : Int)
        - ((pre.length + 12 : Nat) : Int)) - 1) = -1 := by
      simp only [List.length_nil, Nat.add_zero, sub_self]
      decide
    rw [h1, to_size_t_neg_one]
    have h2 : min npos (pre.length + 12 + ([] : Bytes).length + 1 + post.length
        - (pre.length + 12)) = ('\n' :: post).length := by
      unfold npos; simp only [List.length_nil, List.length_cons]; omega
    rw [h2]
    simp
  | cons a t =>
    simp only [List.length_cons] at hlen
    have h0 : ((pre.length + 12 + (a :: t).length : Nat) : Int) - ((pre.length + 12 : Nat) : Int)
        = ((t.length : Nat) : Int) + 1 := by simp only [List.length_cons]; push_cast; omega
    have h1 : int_wrap (int_wrap (((pre.length + 12 + (a :: t).length : Nat) : Int)
        - ((pre.length + 12 : Nat) : Int)) - 1) = ((t.length : Nat) : Int) := by
      rw [h0, int_wrap_of_range ((t.length : Int) + 1) (by omega) (by omega),
        int_wrap_of_range _ (by omega) (by omega)]
      omega
    rw [h1, to_size_t_of_nat _ (by omega)]
    have h2 : min t.length (pre.length + 12 + (a :: t).length + 1 + post.length
        - (pre.length + 12)) = t.length := by
      simp only [List.length_cons]; omega
    rw [h2]
    simp only [if_neg (List.cons_ne_nil a t), Option.some.injEq]
    rw [List.dropLast_eq_take, List.take_append_of_le_length (by simp)]
    simp

theorem ok_engine_succeeds (chunks : List Chunk) : (ok_engine chunks).succeeds :=
  ⟨rfl, rfl, fun _ => rfl, rfl⟩

theorem ok_engine_chunks (chunks : List Chunk) : (ok_engine chunks).chunks = chunks := rfl

theorem login_cookie_absent (header : Bytes) (hc : ¬ contains header "Set-Cookie: ".toList) :
    login_cookie header =
      if contains header "401 Unauthorized".toList then
        some "Error: Authentication failed.".toList
      else some "Error: The server returned no cookie.".toList := by
  unfold login_cookie
  simp only [(find_zero_eq_none _ _).2 hc, size_t_val, to_int_npos, to_size_t_neg_one, if_true]
  by_cases h : contains header "401 Unauthorized".toList
  · rw [if_pos h, if_pos (fun e => (find_zero_eq_none _ _).1 e h)]
  · rw [if_neg h, if_neg (fun e => e ((find_zero_eq_none _ _).2 h))]

/-! ## The login operation -/

/-- Supports C2: in a successful login whose header block has its first `Set-Cookie: `
after `pre`, followed by `span`, a newline and `post`, the value returned is `span` without
its last char when `span` is not empty, and everything after the marker otherwise. -/
theorem caosdb_login_cookie_span (E : Engine) (user pw baseurl cacert : Bytes) (verbose : Bool)
    (pre span post : Bytes) (hE : E.succeeds)
    (hH : received Sink.header E.chunks =
      pre ++ ("Set-Cookie: ".toList ++ (span ++ '\n' :: post)))
    (hpre : ¬ contains pre "Set-Cookie: ".toList) (hnl : '\n' ∉ span)
    (hlen : (received Sink.header E.chunks).length < 2 ^ 31) :
    (caosdb_login E user pw baseurl cacert verbose).1 =
      some (if span = [] then '\n' :: post else span.dropLast) := by
  rw [login_of_succeeds E user pw baseurl cacert verbose hE, hH]
  rw [hH] at hlen
  exact login_cookie_span pre span post
    (find_first 'S' "et-Cookie: ".toList pre _ (by decide) hpre) hnl hlen

/-- C2 (the code departs from the claim): a successful login whose header block holds the
line `Set-Cookie: ` ended by a newline right after the marker has an empty span between
marker and newline, yet the value returned is not the empty string but the whole rest of
the header block, newline included. -/
theorem caosdb_login_empty_cookie_span :
    contains (received Sink.header
      (ok_engine [⟨Sink.header, "HTTP/1.1 200 OK\r\n".toList, by decide⟩,
        ⟨Sink.header, "Set-Cookie: \n".toList, by decide⟩,
        ⟨Sink.header, "Content-Length: 0\r\n".toList, by decide⟩]).chunks) "Set-Cookie: ".toList ∧
    (caosdb_login
      (ok_engine [⟨Sink.header, "HTTP/1.1 200 OK\r\n".toList, by decide⟩,
        ⟨Sink.header, "Set-Cookie: \n".toList, by decide⟩,
        ⟨Sink.header, "Content-Length: 0\r\n".toList, by decide⟩])
      "admin".toList "secret".toList "https://test.local/".toList [] false).1 =
      some "\nContent-Length: 0\r\n".toList := by
  decide

/-- Supports C3: in a successful login whose header block is `pre`, `Set-Cookie: `, a
token `t`, CR LF and `post`, where `pre` does not contain `Set-Cookie: ` and `t` has no
newline, the value returned is exactly `t` as long as the header block is shorter than
`2 ^ 31` bytes, so that its offsets fit an `int`. -/
theorem caosdb_login_returns_token_below (E : Engine) (user pw baseurl cacert : Bytes)
    (verbose : Bool) (pre t post : Bytes) (hE : E.succeeds)
    (hH : received Sink.header E.chunks =
      pre ++ "Set-Cookie: ".toList ++ t ++ ['\r', '\n'] ++ post)
    (hpre : ¬ contains pre "Set-Cookie: ".toList) (ht : '\n' ∉ t)
    (hlen : (received Sink.header E.chunks).length < 2 ^ 31) :
    (caosdb_login E user pw baseurl cacert verbose).1 = some t := by
  have hH2 : received Sink.header E.chunks =
      pre ++ ("Set-Cookie: ".toList ++ ((t ++ ['\r']) ++ '\n' :: post)) := by
    rw [hH]; simp
  have hnl : '\n' ∉ t ++ ['\r'] := by
    intro h
    rcases List.mem_append.1 h with h | h
    · exact ht h
    · simp at h
  rw [caosdb_login_cookie_span E user pw baseurl cacert verbose pre (t ++ ['\r']) post hE hH2
    hpre hnl hlen]
  simp

/-- Supports C3: the header block `Set-Cookie: abc123` CR LF gives `abc123`. -/
theorem caosdb_login_returns_token_short :
    (caosdb_login (ok_engine [⟨Sink.header, "Set-Cookie: abc123\r\n".toList, by decide⟩])
      "admin".toList "secret".toList "https://test.local/".toList [] false).1 =
      some "abc123".toList :=
  caosdb_login_returns_token_below (ok_engine [⟨Sink.header, "Set-Cookie: abc123\r\n".toList, by decide⟩])
    "admin".toList "secret".toList "https://test.local/".toList [] false
    [] "abc123".toList [] (ok_engine_succeeds _) (by decide) (by decide) (by decide) (by decide)

theorem not_contains_of_not_mem (c : Char) (s pat : Bytes) (hc : c ∈ pat) (hs : c ∉ s) :
    ¬ contains s pat :=
  fun h => hs (h.subset hc)

theorem mem_pad_line (c : Char) (k : Nat) (h : c ∈ pad_line k) : c ∈ "X-Pad: a\r\n".toList := by
  have hsplit : "X-Pad: a\r\n".toList = "X-Pad: ".toList ++ 'a' :: "\r\n".toList := rfl
  rw [hsplit]
  unfold pad_line at h
  rcases List.mem_append.1 h with h | h
  · rcases List.mem_append.1 h with h | h
    · exact List.mem_append_left _ h
    · rw [List.eq_of_mem_replicate h]
      exact List.mem_append_right _ (List.mem_cons_self _ _)
  · exact List.mem_append_right _ (List.mem_cons_of_mem _ h)

theorem mem_pad_block (c : Char) (m k : Nat) (h : c ∈ pad_block m k) :
    c ∈ "X-Pad: a\r\n".toList := by
  unfold pad_block at h
  obtain ⟨l, hl, hc⟩ := List.mem_flatten.1 h
  rw [List.eq_of_mem_replicate hl] at hc
  exact mem_pad_line c k hc

theorem pad_line_length (k : Nat) : (pad_line k).length = k + 9 := by
  have h1 : "X-Pad: ".toList.length = 7 := rfl
  have h2 : "\r\n".toList.length = 2 := rfl
  simp only [pad_line, List.length_append, List.length_replicate, h1, h2]
  omega

theorem pad_block_length (m k : Nat) : (pad_block m k).length = m * (k + 9) := by
  induction m with
  | zero => simp [pad_block]
  | succ m ih =>
    unfold pad_block at ih ⊢
    rw [List.replicate_succ, List.flatten_cons, List.length_append, ih, pad_line_length]
    ring

theorem received_pad_chunks (m k : Nat) (h : k + 9 < 2 ^ 64) (rest : List Chunk) :
    received Sink.header (List.replicate m (pad_chunk k h) ++ rest) =
      pad_block m k ++ received Sink.header rest := by
  induction m with
  | zero => simp [pad_block]
  | succ m ih =>
    unfold pad_block at ih ⊢
    rw [List.replicate_succ, List.replicate_succ, List.flatten_cons, List.cons_append,
      List.append_assoc, ← ih]
    simp [received, pad_chunk]

/-- What lines 143-149 do when the first `Set-Cookie: ` stands at an offset that the
conversion to `int` turns into -1: the cookie is taken to be missing. -/
theorem login_cookie_offset_wraps (header : Bytes) (p : Nat)
    (hfind : find header "Set-Cookie: ".toList 0 = some p) (hp : p % 2 ^ 32 = 2 ^ 32 - 1)
    (h401 : ¬ contains header "401 Unauthorized".toList) :
    login_cookie header = some "Error: The server returned no cookie.".toList := by
  have hint : to_int p = -1 := by
    unfold to_int
    rw [hp]
    decide
  unfold login_cookie
  simp only [hfind, size_t_val, hint, to_size_t_neg_one, if_true]
  rw [if_neg (fun e => e ((find_zero_eq_none _ _).2 h401))]

/-- Supports C3: a header block of `m` padding lines, `2 ^ 32 - 1` bytes modulo `2 ^ 32`
in all, followed by the line `Set-Cookie: abc123`, has the shape of the claim, and a
successful login with it returns the no-cookie text. -/
theorem caosdb_login_offset_wraps (m k : Nat) (h : k + 9 < 2 ^ 64)
    (hmk : m * (k + 9) % 2 ^ 32 = 2 ^ 32 - 1) (user pw baseurl cacert : Bytes)
    (verbose : Bool) :
    received Sink.header (List.replicate m (pad_chunk k h) ++
        [⟨Sink.header, "Set-Cookie: abc123\r\n".toList, by decide⟩]) =
      pad_block m k ++ "Set-Cookie: ".toList ++ "abc123".toList ++ ['\r', '\n'] ++ [] ∧
    ¬ contains (pad_block m k) "Set-Cookie: ".toList ∧
    '\n' ∉ "abc123".toList ∧
    (caosdb_login (ok_engine (List.replicate m (pad_chunk k h) ++
        [⟨Sink.header, "Set-Cookie: abc123\r\n".toList, by decide⟩]))
      user pw baseurl cacert verbose).1 = some "Error: The server returned no cookie.".toList := by
  have hrec : received Sink.header (List.replicate m (pad_chunk k h) ++
        [⟨Sink.header, "Set-Cookie: abc123\r\n".toList, by decide⟩]) =
      pad_block m k ++ ("Set-Cookie: ".toList ++ "abc123\r\n".toList) := by
    rw [received_pad_chunks]
    rfl
  have hS : ¬ contains (pad_block m k) "Set-Cookie: ".toList :=
    not_contains_of_not_mem 'S' _ _ (by decide)
      (fun hc => absurd (mem_pad_block _ _ _ hc) (by decide))
  have h4 : ¬ contains (pad_block m k ++ ("Set-Cookie: ".toList ++ "abc123\r\n".toList))
      "401 Unauthorized".toList :=
    not_contains_of_not_mem '4' _ _ (by decide) (fun hc => by
      rcases List.mem_append.1 hc with hc | hc
      · exact absurd (mem_pad_block _ _ _ hc) (by decide)
      · exact absurd hc (by decide))
  refine ⟨?_, hS, by decide, ?_⟩
  · rw [hrec]
    simp only [List.append_assoc, List.append_nil]
    rfl
  · rw [login_of_succeeds _ user pw baseurl cacert verbose (ok_engine_succeeds _)]
    rw [ok_engine_chunks, hrec]
    refine login_cookie_offset_wraps _ (pad_block m k).length ?_ ?_ h4
    · exact find_first 'S' "et-Cookie: ".toList (pad_block m k) "abc123\r\n".toList
        (by decide) hS
    · rw [pad_block_length]
      exact hmk

/-- C3 (the code departs from the claim): the server answers with 65537 padding header
lines of 65535 bytes and then `Set-Cookie: abc123` CR LF. The header block is `pre`,
`Set-Cookie: `, `abc123`, CR LF with a `pre` of `2 ^ 32 - 1` bytes that does not contain
`Set-Cookie: `; the offset of the marker does not fit the `int` it is stored in, and the
successful login returns the no-cookie text instead of `abc123`. -/
theorem caosdb_login_long_header_loses_token :
    received Sink.header long_header_chunks =
      pad_block 65537 65526 ++ "Set-Cookie: ".toList ++ "abc123".toList ++ ['\r', '\n'] ++ [] ∧
    ¬ contains (pad_block 65537 65526) "Set-Cookie: ".toList ∧
    '\n' ∉ "abc123".toList ∧
    (caosdb_login (ok_engine long_header_chunks) "admin".toList "secret".toList
      "https://test.local/".toList [] false).1 =
      some "Error: The server returned no cookie.".toList := by
  unfold long_header_chunks
  exact caosdb_login_offset_wraps 65537 65526 (by norm_num) (by norm_num) _ _ _ _ _

/-- C4: in a successful login whose header block does not contain `Set-Cookie: `, the
value returned is the authentication-failure text if the block contains
`401 Unauthorized`, and the no-cookie text otherwise. -/
theorem caosdb_login_no_cookie (E : Engine) (user pw baseurl cacert : Bytes) (verbose : Bool)
    (hE : E.succeeds)
    (hc : ¬ contains (received Sink.header E.chunks) "Set-Cookie: ".toList) :
    (caosdb_login E user pw baseurl cacert verbose).1 =
      if contains (received Sink.header E.chunks) "401 Unauthorized".toList then
        some "Error: Authentication failed.".toList
      else some "Error: The server returned no cookie.".toList := by
  rw [login_of_succeeds E user pw baseurl cacert verbose hE]
  exact login_cookie_absent _ hc

/-- Witness of C4: a 401 answer without cookie gives the authentication-failure text. -/
theorem caosdb_login_no_cookie_witness :
    (caosdb_login (ok_engine [⟨Sink.header, "HTTP/1.1 401 Unauthorized\r\n\r\n".toList, by decide⟩])
      "admin".toList "wrong".toList "https://test.local/".toList [] false).1 =
      some "Error: Authentication failed.".toList :=
  (caosdb_login_no_cookie (ok_engine [⟨Sink.header, "HTTP/1.1 401 Unauthorized\r\n\r\n".toList, by decide⟩])
    "admin".toList "wrong".toList "https://test.local/".toList [] false
    (ok_engine_succeeds _) (by decide)).trans (by decide)

/-- C5 (the claim as stated fails): a successful login whose header block contains
`401 Unauthorized` and also a `Set-Cookie: ` line returns the cookie, which does not start
with the error marker. -/
theorem caosdb_login_401_with_cookie :
    contains (received Sink.header
      (ok_engine [⟨Sink.header, "HTTP/1.1 401 Unauthorized\r\n".toList, by decide⟩,
        ⟨Sink.header, "Set-Cookie: guest=1\r\n".toList, by decide⟩]).chunks) "401 Unauthorized".toList ∧
    (caosdb_login
      (ok_engine [⟨Sink.header, "HTTP/1.1 401 Unauthorized\r\n".toList, by decide⟩,
        ⟨Sink.header, "Set-Cookie: guest=1\r\n".toList, by decide⟩])
      "admin".toList "wrong".toList "https://test.local/".toList [] false).1 =
      some "guest=1".toList ∧
    ¬ is_error "guest=1".toList := by
  decide

/-- C5 as amended: in a successful login whose header block contains `401 Unauthorized`
and does not contain `Set-Cookie: `, the value returned is the authentication-failure
text, which starts with the error marker. -/
theorem caosdb_login_401_without_cookie (E : Engine) (user pw baseurl cacert : Bytes)
    (verbose : Bool) (hE : E.succeeds)
    (h401 : contains (received Sink.header E.chunks) "401 Unauthorized".toList)
    (hc : ¬ contains (received Sink.header E.chunks) "Set-Cookie: ".toList) :
    (caosdb_login E user pw baseurl cacert verbose).1 =
      some "Error: Authentication failed.".toList ∧
    is_error "Error: Authentication failed.".toList := by
  refine ⟨?_, by decide⟩
  rw [login_of_succeeds E user pw baseurl cacert verbose hE, login_cookie_absent _ hc,
    if_pos h401]

/-- Witness of C5 as amended. -/
theorem caosdb_login_401_without_cookie_witness :
    (caosdb_login (ok_engine [⟨Sink.header, "HTTP/1.1 401 Unauthorized\r\n".toList, by decide⟩,
        ⟨Sink.header, "Content-Length: 0\r\n\r\n".toList, by decide⟩])
      "admin".toList "wrong".toList "https://test.local/".toList [] true).1 =
      some "Error: Authentication failed.".toList ∧
    is_error "Error: Authentication failed.".toList :=
  caosdb_login_401_without_cookie (ok_engine [⟨Sink.header, "HTTP/1.1 401 Unauthorized\r\n".toList, by decide⟩,
        ⟨Sink.header, "Content-Length: 0\r\n\r\n".toList, by decide⟩])
    "admin".toList "wrong".toList "https://test.local/".toList [] true
    (ok_engine_succeeds _) (by decide) (by decide)

/-! ## The verb operations -/

/-- Supports C1: when every call succeeds and the unset local `code` happens to hold
`CURLE_OK`, each of the four operations returns the body chunks joined in arrival order. -/
theorem verbs_return_body (E : Engine) (url cookiestring body baseurl cacert : Bytes)
    (verbose : Bool) (hE : E.succeeds) :
    (caosdb_get E CURLE_OK url cookiestring baseurl cacert verbose).1 =
      some (received Sink.body E.chunks) ∧
    (caosdb_delete E CURLE_OK url cookiestring baseurl cacert verbose).1 =
      some (received Sink.body E.chunks) ∧
    (caosdb_put E CURLE_OK url cookiestring body baseurl cacert verbose).1 =
      some (received Sink.body E.chunks) ∧
    (caosdb_post E CURLE_OK url cookiestring body baseurl cacert verbose).1 =
      some (received Sink.body E.chunks) := by
  obtain ⟨h1, h2, h3, h4⟩ := hE
  refine ⟨?_, ?_, ?_, ?_⟩ <;> cases verbose <;>
    simp [caosdb_get, caosdb_delete, caosdb_put, caosdb_post, init, set_streams,
      curl_global_init, curl_easy_init, curl_easy_setopt, CURLCODE_ERRORCHECK, CURL_PERFORM,
      curl_easy_perform, h1, h2, h3, h4, deliver_eq]

/-- Supports C1: when every call succeeds and the unset local `code` holds anything but
`CURLE_OK`, each of the four operations returns the option-error text, not the body. -/
theorem verbs_unset_code_error (E : Engine) (code : CURLcode)
    (url cookiestring body baseurl cacert : Bytes) (verbose : Bool) (hE : E.succeeds)
    (hcode : code ≠ CURLE_OK) :
    (caosdb_get E code url cookiestring baseurl cacert verbose).1 =
      some "Error: Error setting libCURL options (function_name).".toList ∧
    (caosdb_delete E code url cookiestring baseurl cacert verbose).1 =
      some "Error: Error setting libCURL options (function_name).".toList ∧
    (caosdb_put E code url cookiestring body baseurl cacert verbose).1 =
      some "Error: Error setting libCURL options (function_name).".toList ∧
    (caosdb_post E code url cookiestring body baseurl cacert verbose).1 =
      some "Error: Error setting libCURL options (function_name).".toList := by
  obtain ⟨h1, h2, h3, h4⟩ := hE
  refine ⟨?_, ?_, ?_, ?_⟩ <;> cases verbose <;>
    simp [caosdb_get, caosdb_delete, caosdb_put, caosdb_post, init, set_streams,
      curl_global_init, curl_easy_init, curl_easy_setopt, CURLCODE_ERRORCHECK, CURL_PERFORM,
      curl_easy_perform, h1, h2, h3, h4, hcode]

/-- Supports C6: the four operations do not see whether the engine accepts the verbose
flag, the cookie, the method or the payload. When the other calls succeed and the unset
local `code` holds `CURLE_OK`, each returns the body whatever the engine answers to those
four settings. -/
theorem verbs_ignore_option_failures (E : Engine)
    (url cookiestring body baseurl cacert : Bytes) (verbose : Bool)
    (h1 : E.global_init = CURLE_OK) (h2 : E.easy_init = true)
    (h3 : E.setopt CurlOpt.WRITEFUNCTION = CURLE_OK)
    (h4 : E.setopt CurlOpt.HEADERFUNCTION = CURLE_OK) (h5 : E.setopt CurlOpt.URL = CURLE_OK)
    (h6 : E.setopt CurlOpt.CAINFO = CURLE_OK) (h7 : E.setopt CurlOpt.WRITEDATA = CURLE_OK)
    (h8 : E.setopt CurlOpt.HEADERDATA = CURLE_OK)
    (h9 : E.setopt CurlOpt.ERRORBUFFER = CURLE_OK) (h10 : E.perform = CURLE_OK) :
    (caosdb_get E CURLE_OK url cookiestring baseurl cacert verbose).1 =
      some (received Sink.body E.chunks) ∧
    (caosdb_delete E CURLE_OK url cookiestring baseurl cacert verbose).1 =
      some (received Sink.body E.chunks) ∧
    (caosdb_put E CURLE_OK url cookiestring body baseurl cacert verbose).1 =
      some (received Sink.body E.chunks) ∧
    (caosdb_post E CURLE_OK url cookiestring body baseurl cacert verbose).1 =
      some (received Sink.body E.chunks) := by
  refine ⟨?_, ?_, ?_, ?_⟩ <;> cases verbose <;>
    simp [caosdb_get, caosdb_delete, caosdb_put, caosdb_post, init, set_streams,
      curl_global_init, curl_easy_init, curl_easy_setopt, CURLCODE_ERRORCHECK, CURL_PERFORM,
      curl_easy_perform, h1, h2, h3, h4, h5, h6, h7, h8, h9, h10, deliver_eq]

/-- C6 (the code departs from the claim): the engine rejects the cookie option with code
27, the result of that `curl_easy_setopt` is not stored, and in a run in which the unset
local `code` holds `CURLE_OK` `caosdb_get` performs the request and returns the body, which
does not start with the error marker. -/
theorem caosdb_get_ignores_rejected_option :
    failed (rejecting_engine CurlOpt.COOKIE 27 [⟨Sink.body, "<Response/>".toList, by decide⟩])
      (Call.setopt CurlOpt.COOKIE (Arg.str "sid=42".toList)) ∧
    Call.setopt CurlOpt.COOKIE (Arg.str "sid=42".toList) ∈
      (caosdb_get (rejecting_engine CurlOpt.COOKIE 27 [⟨Sink.body, "<Response/>".toList, by decide⟩])
        CURLE_OK "Entity/101".toList "sid=42".toList "https://test.local/".toList [] false).2 ∧
    (caosdb_get (rejecting_engine CurlOpt.COOKIE 27 [⟨Sink.body, "<Response/>".toList, by decide⟩])
      CURLE_OK "Entity/101".toList "sid=42".toList "https://test.local/".toList [] false).1 =
      some "<Response/>".toList ∧
    ¬ is_error "<Response/>".toList := by
  refine ⟨?_, ?_, ?_, ?_⟩
  · simp [failed, rejecting_engine, CURLE_OK]
  · decide
  · decide
  · decide

/-- C9 (the code departs from the claim): with an empty trust-anchor path `init` still
sets `CURLOPT_CAINFO`, and when the engine rejects that setting (code 27) while every other
call succeeds it returns 2. -/
theorem init_empty_ca_returns_2 :
    (init (rejecting_engine CurlOpt.CAINFO 27 []) "https://test.local/Entity/101".toList []).1
      = 2 ∧
    Call.setopt CurlOpt.CAINFO (Arg.str []) ∈
      (init (rejecting_engine CurlOpt.CAINFO 27 []) "https://test.local/Entity/101".toList []).2
    := by
  decide

/-- Supports C9: whatever the path, once the engine is created and the two callbacks and
the URL are set, the value of `init` is decided by the answer to the `CURLOPT_CAINFO`
setting alone. -/
theorem init_depends_on_ca_setting (E : Engine) (url ca : Bytes)
    (h1 : E.global_init = CURLE_OK) (h2 : E.easy_init = true)
    (h3 : E.setopt CurlOpt.WRITEFUNCTION = CURLE_OK)
    (h4 : E.setopt CurlOpt.HEADERFUNCTION = CURLE_OK) (h5 : E.setopt CurlOpt.URL = CURLE_OK) :
    (init E url ca).1 = if E.setopt CurlOpt.CAINFO = CURLE_OK then 0 else 2 := by
  by_cases h : E.setopt CurlOpt.CAINFO = CURLE_OK <;>
    simp [init, curl_global_init, curl_easy_init, curl_easy_setopt, h1, h2, h3, h4, h5, h]

theorem c_str_of_no_NUL (s : Bytes) (h : NUL ∉ s) : c_str s = s := by
  unfold c_str
  rw [List.takeWhile_eq_self_iff]
  intro x hx
  simpa using fun e : x = NUL => h (e ▸ hx)

theorem read_line_first (L rest : Bytes) (k : Nat) (hL : '\n' ∉ L) (hk : L.length < k) :
    read_line k (L ++ '\n' :: rest) = L ++ ['\n'] := by
  induction L generalizing k with
  | nil =>
    cases k with
    | zero => simp at hk
    | succ k => simp [read_line]
  | cons a L ih =>
    cases k with
    | zero => simp at hk
    | succ k =>
      have ha : a ≠ '\n' := fun e => hL (by simp [e])
      rw [List.cons_append, read_line, if_neg ha,
        ih k (fun h => hL (List.mem_cons_of_mem _ h)) (by simpa using hk)]
      rfl

/-- Supports C10: when `pass` starts and its output begins with a line `L` of fewer than
1999 bytes (without NUL byte) ended by a newline, `get_pass_pw` returns `L` followed by that
newline. -/
theorem get_pass_pw_first_line (S : Shell) (pw_identifier L rest : Bytes)
    (hS : S.popen (c_str ("pass ".toList ++ pw_identifier)) = some (L ++ '\n' :: rest))
    (hL : '\n' ∉ L) (h0 : NUL ∉ L) (hlen : L.length < 1999) :
    get_pass_pw S pw_identifier = some (L ++ ['\n']) := by
  have hne : L ++ '\n' :: rest ≠ [] := by simp
  have hN : NUL ∉ L ++ ['\n'] := by
    intro h
    rcases List.mem_append.1 h with h | h
    · exact h0 h
    · revert h; decide
  simp only [get_pass_pw, hS, fgets, if_neg hne]
  rw [read_line_first L rest _ hL (by omega), c_str_of_no_NUL _ hN]

/-- C10 (the code departs from the claim): `pass mail/caosdb` prints the line `hunter2`
and a second line; `get_pass_pw` returns `hunter2` with the newline still attached, not
`hunter2`. -/
theorem get_pass_pw_keeps_newline :
    sample_shell.popen "pass mail/caosdb".toList = some "hunter2\nlogin: admin\n".toList ∧
    get_pass_pw sample_shell "mail/caosdb".toList = some "hunter2\n".toList ∧
    get_pass_pw sample_shell "mail/caosdb".toList ≠ some "hunter2".toList := by
  decide

/-! ## Failures of the login operation -/

theorem is_error_marked (s : Bytes) :
    is_error ('E' :: 'r' :: 'r' :: 'o' :: 'r' :: ':' :: ' ' :: s) :=
  ⟨s, rfl⟩

/-- Supports C6: `caosdb_login` either returns a text that starts with the error marker,
or every call it made succeeded and it returns what `login_cookie` reads from the header
block. -/
theorem caosdb_login_cases (E : Engine) (user pw baseurl cacert : Bytes) (verbose : Bool) :
    (∃ r, (caosdb_login E user pw baseurl cacert verbose).1 = some r ∧ is_error r) ∨
    ((∀ c ∈ (caosdb_login E user pw baseurl cacert verbose).2, ¬ failed E c) ∧
      (caosdb_login E user pw baseurl cacert verbose).1 =
        login_cookie (received Sink.header E.chunks)) := by
  by_cases h1 : E.global_init = CURLE_OK
  swap
  · left
    cases verbose <;>
      simp [caosdb_login, init, set_streams, CURL_PERFORM, CURLCODE_ERRORCHECK, curl_easy_perform,
        curl_global_init, curl_easy_init, curl_easy_setopt,
        h1, is_error_marked]
  by_cases h2 : E.easy_init = true
  swap
  · left
    cases verbose <;>
      simp [caosdb_login, init, set_streams, CURL_PERFORM, CURLCODE_ERRORCHECK, curl_easy_perform,
        curl_global_init, curl_easy_init, curl_easy_setopt,
        h1, h2, is_error_marked]
  by_cases h3 : E.setopt CurlOpt.WRITEFUNCTION = CURLE_OK
  swap
  · left
    cases verbose <;>
      simp [caosdb_login, init, set_streams, CURL_PERFORM, CURLCODE_ERRORCHECK, curl_easy_perform,
        curl_global_init, curl_easy_init, curl_easy_setopt,
        h1, h2, h3, is_error_marked]
  by_cases h4 : E.setopt CurlOpt.HEADERFUNCTION = CURLE_OK
  swap
  · left
    cases verbose <;>
      simp [caosdb_login, init, set_streams, CURL_PERFORM, CURLCODE_ERRORCHECK, curl_easy_perform,
        curl_global_init, curl_easy_init, curl_easy_setopt,
        h1, h2, h3, h4, is_error_marked]
  by_cases h5 : E.setopt CurlOpt.URL = CURLE_OK
  swap
  · left
    cases verbose <;>
      simp [caosdb_login, init, set_streams, CURL_PERFORM, CURLCODE_ERRORCHECK, curl_easy_perform,
        curl_global_init, curl_easy_init, curl_easy_setopt,
        h1, h2, h3, h4, h5, is_error_marked]
  by_cases h6 : E.setopt CurlOpt.CAINFO = CURLE_OK
  swap
  · left
    cases verbose <;>
      simp [caosdb_login, init, set_streams, CURL_PERFORM, CURLCODE_ERRORCHECK, curl_easy_perform,
        curl_global_init, curl_easy_init, curl_easy_setopt,
        h1, h2, h3, h4, h5, h6, is_error_marked]
  by_cases h7 : E.setopt CurlOpt.WRITEDATA = CURLE_OK
  swap
  · left
    cases verbose <;>
      simp [caosdb_login, init, set_streams, CURL_PERFORM, CURLCODE_ERRORCHECK, curl_easy_perform,
        curl_global_init, curl_easy_init, curl_easy_setopt,
        h1, h2, h3, h4, h5, h6, h7, is_error_marked]
  by_cases h8 : E.setopt CurlOpt.HEADERDATA = CURLE_OK
  swap
  · left
    cases verbose <;>
      simp [caosdb_login, init, set_streams, CURL_PERFORM, CURLCODE_ERRORCHECK, curl_easy_perform,
        curl_global_init, curl_easy_init, curl_easy_setopt,
        h1, h2, h3, h4, h5, h6, h7, h8, is_error_marked]
  by_cases h9 : E.setopt CurlOpt.POST = CURLE_OK
  swap
  · left
    cases verbose <;>
      simp [caosdb_login, init, set_streams, CURL_PERFORM, CURLCODE_ERRORCHECK, curl_easy_perform,
        curl_global_init, curl_easy_init, curl_easy_setopt,
        h1, h2, h3, h4, h5, h6, h7, h8, h9, is_error_marked]
  by_cases h10 : E.setopt CurlOpt.POSTFIELDS = CURLE_OK
  swap
  · left
    cases verbose <;>
      simp [caosdb_login, init, set_streams, CURL_PERFORM, CURLCODE_ERRORCHECK, curl_easy_perform,
        curl_global_init, curl_easy_init, curl_easy_setopt,
        h1, h2, h3, h4, h5, h6, h7, h8, h9, h10, is_error_marked]
  by_cases hV : verbose = true → E.setopt CurlOpt.VERBOSE = CURLE_OK
  swap
  · obtain ⟨hv, hV2⟩ := Classical.not_imp.mp hV
    subst hv
    left
    simp [caosdb_login, init, set_streams, CURL_PERFORM, CURLCODE_ERRORCHECK, curl_easy_perform,
        curl_global_init, curl_easy_init, curl_easy_setopt,
        h1, h2, h3, h4, h5, h6, h7, h8, h9, h10, hV2, is_error_marked]
  by_cases h11 : E.setopt CurlOpt.ERRORBUFFER = CURLE_OK
  swap
  · left
    cases verbose
    · simp [caosdb_login, init, set_streams, CURL_PERFORM, CURLCODE_ERRORCHECK, curl_easy_perform,
        curl_global_init, curl_easy_init, curl_easy_setopt,
        h1, h2, h3, h4, h5, h6, h7, h8, h9, h10, h11, is_error_marked]
    · have hV2 := hV rfl
      simp [caosdb_login, init, set_streams, CURL_PERFORM, CURLCODE_ERRORCHECK, curl_easy_perform,
        curl_global_init, curl_easy_init, curl_easy_setopt,
        h1, h2, h3, h4, h5, h6, h7, h8, h9, h10, h11, hV2, is_error_marked]
  by_cases h12 : E.perform = CURLE_OK
  swap
  · left
    cases verbose
    · simp [caosdb_login, init, set_streams, CURL_PERFORM, CURLCODE_ERRORCHECK, curl_easy_perform,
        curl_global_init, curl_easy_init, curl_easy_setopt,
        h1, h2, h3, h4, h5, h6, h7, h8, h9, h10, h11, h12, is_error_marked]
    · have hV2 := hV rfl
      simp [caosdb_login, init, set_streams, CURL_PERFORM, CURLCODE_ERRORCHECK, curl_easy_perform,
        curl_global_init, curl_easy_init, curl_easy_setopt,
        h1, h2, h3, h4, h5, h6, h7, h8, h9, h10, h11, h12, hV2, is_error_marked]
  right
  cases verbose
  · simp [caosdb_login, init, set_streams, CURL_PERFORM, CURLCODE_ERRORCHECK, curl_easy_perform,
        curl_global_init, curl_easy_init, curl_easy_setopt,
        h1, h2, h3, h4, h5, h6, h7, h8, h9, h10, h11, h12, failed, deliver_eq]
  · have hV2 := hV rfl
    simp [caosdb_login, init, set_streams, CURL_PERFORM, CURLCODE_ERRORCHECK, curl_easy_perform,
        curl_global_init, curl_easy_init, curl_easy_setopt,
        h1, h2, h3, h4, h5, h6, h7, h8, h9, h10, h11, h12, hV2, failed, deliver_eq]

/-- Supports C6: for `caosdb_login` the claim holds. When a call it makes fails, or the
header block holds no `Set-Cookie: `, the value returned starts with the error marker. -/
theorem caosdb_login_failure_is_error (E : Engine) (user pw baseurl cacert : Bytes)
    (verbose : Bool)
    (h : (∃ c ∈ (caosdb_login E user pw baseurl cacert verbose).2, failed E c) ∨
      ¬ contains (received Sink.header E.chunks) "Set-Cookie: ".toList) :
    ∃ r, (caosdb_login E user pw baseurl cacert verbose).1 = some r ∧ is_error r := by
  rcases caosdb_login_cases E user pw baseurl cacert verbose with hl | ⟨hok, hr⟩
  · exact hl
  · rcases h with ⟨c, hc, hf⟩ | hno
    · exact absurd hf (hok c hc)
    · rw [hr, login_cookie_absent _ hno]
      by_cases h401 : contains (received Sink.header E.chunks) "401 Unauthorized".toList
      · exact ⟨_, if_pos h401, by decide⟩
      · exact ⟨_, if_neg h401, by decide⟩

/-! ## The wrappers -/

/-- C8 (the claim as stated fails): the server answers with a body that has a NUL byte in
it; `caosdb_get` returns all eight bytes, `get` hands back the three bytes before the NUL. -/
theorem get_stops_at_NUL :
    (caosdb_get (ok_engine [⟨Sink.body, 'P' :: 'N' :: 'G' :: NUL :: "data".toList, by decide⟩]) CURLE_OK
      (string ⟨"Entity/101".toList, by decide⟩) (string ⟨"sid=42".toList, by decide⟩)
      (string ⟨"https://test.local/".toList, by decide⟩) (string ⟨[], by decide⟩) false).1 =
      some ('P' :: 'N' :: 'G' :: NUL :: "data".toList) ∧
    (get (ok_engine [⟨Sink.body, 'P' :: 'N' :: 'G' :: NUL :: "data".toList, by decide⟩]) CURLE_OK
      ⟨"Entity/101".toList, by decide⟩ ⟨"sid=42".toList, by decide⟩
      ⟨"https://test.local/".toList, by decide⟩ ⟨[], by decide⟩ false).1.map string =
      some "PNG".toList := by
  decide

/-- C8 as amended: each of the six wrappers makes the calls of the operation it wraps and
hands back the bytes of that operation's result that stand before its first NUL byte, which
is the whole result when it holds no NUL byte. -/
theorem wrappers_copy_up_to_NUL (E : Engine) (S : Shell) (code : CURLcode)
    (a b c d e : CString) (verbose : Bool) :
    ((login E a b c d verbose).1.map string =
        (caosdb_login E (string a) (string b) (string c) (string d) verbose).1.map c_str ∧
      (login E a b c d verbose).2 =
        (caosdb_login E (string a) (string b) (string c) (string d) verbose).2) ∧
    ((get E code a b c d verbose).1.map string =
        (caosdb_get E code (string a) (string b) (string c) (string d) verbose).1.map c_str ∧
      (get E code a b c d verbose).2 =
        (caosdb_get E code (string a) (string b) (string c) (string d) verbose).2) ∧
    ((del E code a b c d verbose).1.map string =
        (caosdb_delete E code (string a) (string b) (string c) (string d) verbose).1.map c_str ∧
      (del E code a b c d verbose).2 =
        (caosdb_delete E code (string a) (string b) (string c) (string d) verbose).2) ∧
    ((put E code a b c d e verbose).1.map string =
        (caosdb_put E code (string a) (string b) (string c) (string d) (string e)
          verbose).1.map c_str ∧
      (put E code a b c d e verbose).2 =
        (caosdb_put E code (string a) (string b) (string c) (string d) (string e) verbose).2) ∧
    ((post E code a b c d e verbose).1.map string =
        (caosdb_post E code (string a) (string b) (string c) (string d) (string e)
          verbose).1.map c_str ∧
      (post E code a b c d e verbose).2 =
        (caosdb_post E code (string a) (string b) (string c) (string d) (string e) verbose).2) ∧
    (pass_pw S a).map string = (get_pass_pw S (string a)).map c_str ∧
    ∀ r : Bytes, NUL ∉ r → c_str r = r := by
  have hmap : ∀ o : Option Bytes, (o.map strcpy_new).map string = o.map c_str := by
    intro o
    cases o <;> rfl
  exact ⟨⟨hmap _, rfl⟩, ⟨hmap _, rfl⟩, ⟨hmap _, rfl⟩, ⟨hmap _, rfl⟩, ⟨hmap _, rfl⟩, hmap _,
    c_str_of_no_NUL⟩

end CaosDB
